import Mathlib

/-!
Shallow embedding of `src/iot_driver_copilot/rtsp_camera/driver.py`.

The Python module implements a reference-counted shared camera capture loop
(`CameraStream`) behind a small HTTP surface.  We embed the mutable object
state as a Lean structure and each Python method as a pure state
transformer.  The background `_update` thread is embedded as a set of loop
events (`CamEv.loopOpen`, `CamEv.loopRead`, `CamEv.loopExit`) acting on the
shared state through a guarded step function `camStep`; a program execution
is a trace of subscribe/unsubscribe calls interleaved with loop events, run
atomically one step at a time (each Python statement group that the claims
treat as one operation is one step).  Frames and encoded JPEG payloads are
opaque values modelled as `Nat`; defensive copies of immutable values are
the identity.

Model-only bookkeeping fields (they do not influence the dynamics):
`phase` records where the `_update` thread is (not spawned / before the
`isOpened` check / inside the `while self.running` loop), `openFailed`
records that the last spawned `_update` thread died on the initial
`isOpened` failure path, `backoffSleeps` counts executions of the
`time.sleep(1)` reconnect backoff, and `clock` is the `time.time()` source.
The model tracks a single `_update` thread slot: a new thread is only
spawned from `start()` while no previous thread is live, matching the
steady-state (no operation in flight) reading used by the claims.
-/

/-- Where the single `_update` thread currently is: not running at all,
spawned but before the `isOpened` check, or inside the read loop. -/
inductive Phase
  | idle
  | starting
  | looping
deriving DecidableEq, Repr

/-- State of the Python `CameraStream` object.  `cap : Bool` records whether
`self.cap` currently holds a `VideoCapture` handle (`true`) or is `None`
(`false`); `frame : Option Nat` is `self.frame`; `subscribers : Int`
mirrors the unbounded Python integer `self.subscribers`. -/
structure CameraStream where
  rtsp_url : String
  cap : Bool
  running : Bool
  frame : Option Nat
  last_frame_time : Nat
  fps : Nat
  subscribers : Int
  phase : Phase
  openFailed : Bool
  backoffSleeps : Nat
  clock : Nat
deriving DecidableEq, Repr

/-- `CameraStream.__init__`: no handle, not running, no frame, count 0. -/
def camInit (url : String) : CameraStream :=
  { rtsp_url := url
    cap := false
    running := false
    frame := none
    last_frame_time := 0
    fps := 15
    subscribers := 0
    phase := Phase.idle
    openFailed := false
    backoffSleeps := 0
    clock := 0 }

/-- `CameraStream.start`: under the lock, if not already running set
`running := True` and spawn the `_update` thread (phase becomes
`starting`).  `openFailed` is model bookkeeping reset for the new
attempt. -/
def CameraStream.start (s : CameraStream) : CameraStream :=
  if s.running then s
  else { s with running := true, phase := Phase.starting, openFailed := false }

/-- `CameraStream.stop`: under the lock, set `running := False` and, if a
handle is held, release it and set `self.cap = None`. -/
def CameraStream.stop (s : CameraStream) : CameraStream :=
  { s with running := false, cap := false }

/-- `CameraStream.add_subscriber`: `self.subscribers += 1`; if the new count
is 1, call `start()`. -/
def CameraStream.add_subscriber (s : CameraStream) : CameraStream :=
  let s1 := { s with subscribers := s.subscribers + 1 }
  if s1.subscribers = 1 then s1.start else s1

/-- `CameraStream.remove_subscriber`:
`self.subscribers = max(0, self.subscribers - 1)`; if the new count is 0,
call `stop()`. -/
def CameraStream.remove_subscriber (s : CameraStream) : CameraStream :=
  let s1 := { s with subscribers := max 0 (s.subscribers - 1) }
  if s1.subscribers = 0 then s1.stop else s1

/-- `CameraStream.get_frame`: return a copy of the latest frame, or `None`
if none has ever been captured.  Copying an immutable value is the
identity in the model. -/
def CameraStream.get_frame (s : CameraStream) : Option Nat :=
  s.frame

/-- `CameraStream.get_jpeg`: read the latest frame and encode it.
`cv2.imencode` is an external collaborator, modelled by the oracle
`enc : Nat → Option Nat` (`none` when `ret` is false). -/
def CameraStream.get_jpeg (s : CameraStream) (enc : Nat → Option Nat) : Option Nat :=
  match s.get_frame with
  | none => none
  | some f => enc f

/-- Events acting on the shared `CameraStream` state: the two subscriber
operations and the observable steps of the `_update` thread. -/
inductive CamEv
  | subscribe
  | unsubscribe
  | loopOpen (ok : Bool)
  | loopRead (r : Option Nat)
  | loopExit
deriving DecidableEq, Repr

/-- One atomic step.  Loop events are guarded by where the `_update` thread
actually is; a `none` result means the event is not enabled in this state.

`loopOpen ok` is `_update`'s prologue: `self.cap = cv2.VideoCapture(url)`
followed by the `isOpened()` check.  On failure it releases the handle,
sets `self.cap = None` and `self.running = False`, and the thread returns
(phase `idle`).  On success with `running` still true the thread enters the
`while self.running` loop (phase `looping`, handle held).  On success with
`running` already false the while-test fails at once and the epilogue
releases the handle.

`loopRead r` is one iteration of the read loop (`while`-test passed, so it
requires `running = true`): on `ret` true the frame and
`self.last_frame_time` are written under the lock; on `ret` false the
handle is released, the thread sleeps the 1-second backoff and reopens a
handle (`continue`), leaving the frame untouched.

`loopExit` is the epilogue after the `while`-test fails: release the
handle if held, thread ends. -/
def camStep (s : CameraStream) : CamEv → Option CameraStream
  | CamEv.subscribe => some s.add_subscriber
  | CamEv.unsubscribe => some s.remove_subscriber
  | CamEv.loopOpen ok =>
      if s.phase = Phase.starting then
        if ok then
          if s.running then
            some { s with cap := true, phase := Phase.looping }
          else
            some { s with cap := false, phase := Phase.idle }
        else
          some { s with cap := false, running := false, phase := Phase.idle,
                        openFailed := true }
      else none
  | CamEv.loopRead r =>
      if s.phase = Phase.looping ∧ s.running then
        match r with
        | some f =>
            some { s with frame := some f, last_frame_time := s.clock,
                          clock := s.clock + 1 }
        | none =>
            some { s with cap := true, backoffSleeps := s.backoffSleeps + 1 }
      else none
  | CamEv.loopExit =>
      if s.phase = Phase.looping ∧ ¬ s.running then
        some { s with cap := false, phase := Phase.idle }
      else none

/-- Run a trace of events from a state; `none` if some event was not
enabled. -/
def camRunFrom (s : CameraStream) : List CamEv → Option CameraStream
  | [] => some s
  | e :: es =>
      match camStep s e with
      | none => none
      | some s1 => camRunFrom s1 es

/-- Run a trace from the freshly constructed singleton
`camera = CameraStream(RTSP_URL)`. -/
def camRun (url : String) (es : List CamEv) : Option CameraStream :=
  camRunFrom (camInit url) es

/-- Steady state in the sense of the spec: no operation in flight — the
`_update` thread is either gone or sitting in its read loop with
`running` still true. -/
def steadyState (s : CameraStream) : Bool :=
  s.phase == Phase.idle || (s.phase == Phase.looping && s.running)

/-- How one event updates the "last successfully read frame" ledger. -/
def frameUpd (acc : Option Nat) : CamEv → Option Nat
  | CamEv.loopRead (some f) => some f
  | _ => acc

/-- The last frame successfully read during a trace, if any. -/
def lastCaptured (tr : List CamEv) : Option Nat :=
  tr.foldl frameUpd none

/-- Events performed by the capture loop itself (as opposed to
subscriber-facing HTTP handlers). -/
def isLoopEv : CamEv → Bool
  | CamEv.subscribe => false
  | CamEv.unsubscribe => false
  | _ => true

/-- Outcome of the `POST /capture` handler: either a `send_file` response
(binary image payload, content type, suggested download name) or the
`abort(503, description=...)` path. -/
inductive CaptureResult
  | ok (contentType : String) (filename : String) (body : Nat)
  | unavailable (status : Nat) (description : String)
deriving DecidableEq, Repr

/-- The `capture` view function: `add_subscriber()`, `time.sleep(0.1)`
(during which the capture loop may perform the events `grace`), read
`get_jpeg()`, `remove_subscriber()`, then either `abort(503)` or return
the JPEG as an attachment named `capture.jpg`.  The result is `none` only
when `grace` contains a loop event not enabled at that point (an
ill-formed schedule, not a behaviour of the handler). -/
def capture (s : CameraStream) (grace : List CamEv) (enc : Nat → Option Nat) :
    Option (CameraStream × CaptureResult) :=
  match camRunFrom s.add_subscriber grace with
  | none => none
  | some s1 =>
      match s1.get_jpeg enc with
      | none =>
          some (s1.remove_subscriber, CaptureResult.unavailable 503 "Camera not ready")
      | some j =>
          some (s1.remove_subscriber, CaptureResult.ok "image/jpeg" "capture.jpg" j)

/-- One part of the `multipart/x-mixed-replace` body yielded by
`gen_mjpeg_stream`. -/
structure MjpegPart where
  contentType : String
  body : Nat
deriving DecidableEq, Repr

/-- Runtime state of one `gen_mjpeg_stream` generator instance:
the shared camera state, the log of parts yielded so far (most recent
first), whether the generator has been closed, and how many times
`remove_subscriber()` has run for it. -/
structure GenState where
  cam : CameraStream
  parts : List MjpegPart
  closed : Bool
  removeCalls : Nat
deriving DecidableEq, Repr

/-- Creating the generator and entering its body: `camera.add_subscriber()`
runs before the `try` block. -/
def genStart (s : CameraStream) : GenState :=
  { cam := s.add_subscriber, parts := [], closed := false, removeCalls := 0 }

/-- One iteration of the generator's `while True` body, with the loop
events `evs` (frames arriving or failing upstream) happening before this
tick's `get_jpeg()` call.  A `None` frame means `time.sleep(0.1)` and
`continue`: nothing is yielded and the generator stays open — the body
contains no `return` or `break`, so no tick ever terminates the stream.
`none` is returned only for a schedule whose loop events are not
enabled. -/
def genTick (g : GenState) (evs : List CamEv) (enc : Nat → Option Nat) :
    Option GenState :=
  if g.closed then none
  else
    match camRunFrom g.cam evs with
    | none => none
    | some s1 =>
        match s1.get_jpeg enc with
        | none => some { g with cam := s1 }
        | some j =>
            some { g with cam := s1,
                          parts := { contentType := "image/jpeg", body := j } :: g.parts }

/-- Run the generator body for a schedule of ticks. -/
def genRun (g : GenState) (enc : Nat → Option Nat) :
    List (List CamEv) → Option GenState
  | [] => some g
  | evs :: rest =>
      match genTick g evs enc with
      | none => none
      | some g1 => genRun g1 enc rest

/-- Closing the generator — the `GeneratorExit` thrown on client disconnect
or any exception propagating out of the body (server-side error).  Either
way the `finally` clause runs `camera.remove_subscriber()` exactly once;
Python runs a generator's `finally` at most once, so closing an
already-closed generator is a no-op. -/
def genClose (g : GenState) : GenState :=
  if g.closed then g
  else { g with cam := g.cam.remove_subscriber, closed := true,
                removeCalls := g.removeCalls + 1 }

/-- The process environment as read by the module prologue. -/
structure Env where
  rtsp_url : Option String
  server_host : Option String
  server_port : Option String
  jpeg_quality : Option String
deriving DecidableEq, Repr

/-- The configuration the process serves with. -/
structure Config where
  rtsp_url : String
  server_host : String
  server_port : Int
  jpeg_quality : Int
deriving DecidableEq, Repr

/-- Value of an all-digit character run, `none` when empty or when a
non-digit appears. -/
def digitsVal (ds : List Char) : Option Nat :=
  match ds with
  | [] => none
  | _ =>
      ds.foldl
        (fun acc c =>
          match acc with
          | none => none
          | some n =>
              if '0' ≤ c ∧ c ≤ '9' then some (n * 10 + (c.toNat - '0'.toNat))
              else none)
        (some 0)

/-- Python `int(s)` on a string: an optional sign followed by at least one
decimal digit, `none` (a `ValueError`) otherwise. -/
def pyInt (s : String) : Option Int :=
  match s.data with
  | '-' :: ds => (digitsVal ds).map (fun n => -(n : Int))
  | '+' :: ds => (digitsVal ds).map (fun n => (n : Int))
  | ds => (digitsVal ds).map (fun n => (n : Int))

/-- The module prologue: read `RTSP_URL` (no default), default
`SERVER_HOST` to `"0.0.0.0"`, `SERVER_PORT` to `int("8080")`,
`JPEG_QUALITY` to `int("80")`, then raise `RuntimeError` if `RTSP_URL` is
unset.  An `error` result is an exception before `app.run` — the process
never starts serving; an `ok` result is the configuration it serves
with.  The `int(...)` conversions run before the `RTSP_URL` check, as in
the source. -/
def loadConfig (e : Env) : Except String Config :=
  let host := e.server_host.getD "0.0.0.0"
  match pyInt (e.server_port.getD "8080") with
  | none => Except.error "invalid literal for int: SERVER_PORT"
  | some port =>
      match pyInt (e.jpeg_quality.getD "80") with
      | none => Except.error "invalid literal for int: JPEG_QUALITY"
      | some quality =>
          match e.rtsp_url with
          | none => Except.error "RTSP_URL environment variable must be set"
          | some url =>
              Except.ok { rtsp_url := url, server_host := host,
                          server_port := port, jpeg_quality := quality }

/-- Fine-grained state for two threads (A and B) each executing
`add_subscriber` concurrently.  CPython runs `self.subscribers += 1` as
separate read and write bytecodes with possible thread switches between
them, while the body of `start()` is executed under `self.lock`.  Each
thread's program counter: 0 = about to read `self.subscribers`,
1 = about to store its local value + 1, 2 = about to test
`self.subscribers == 1`, 3 = about to run `start()` if the test was true,
4 = done.  `startedLoops` counts `_update` threads spawned. -/
structure SubsRace where
  subscribers : Int
  running : Bool
  startedLoops : Nat
  pcA : Nat
  pcB : Nat
  localA : Int
  localB : Int
  willA : Bool
  willB : Bool
deriving DecidableEq, Repr

/-- Initial fine-grained state with a given starting count and a dormant
loop. -/
def raceInit (count : Int) : SubsRace :=
  { subscribers := count, running := false, startedLoops := 0,
    pcA := 0, pcB := 0, localA := 0, localB := 0, willA := false, willB := false }

/-- One fine-grained step by thread A (`t = true`) or B (`t = false`).
`none` when that thread has already finished. -/
def raceStep (s : SubsRace) (t : Bool) : Option SubsRace :=
  let pc := if t then s.pcA else s.pcB
  if pc = 0 then
    some (if t then { s with localA := s.subscribers, pcA := 1 }
          else { s with localB := s.subscribers, pcB := 1 })
  else if pc = 1 then
    some (if t then { s with subscribers := s.localA + 1, pcA := 2 }
          else { s with subscribers := s.localB + 1, pcB := 2 })
  else if pc = 2 then
    some (if t then { s with willA := s.subscribers = 1, pcA := 3 }
          else { s with willB := s.subscribers = 1, pcB := 3 })
  else if pc = 3 then
    let will := if t then s.willA else s.willB
    let s1 :=
      if will then
        if s.running then s
        else { s with running := true, startedLoops := s.startedLoops + 1 }
      else s
    some (if t then { s1 with pcA := 4 } else { s1 with pcB := 4 })
  else none

/-- Run a schedule (list of thread choices) of fine-grained steps. -/
def raceRun (s : SubsRace) : List Bool → Option SubsRace
  | [] => some s
  | t :: ts =>
      match raceStep s t with
      | none => none
      | some s1 => raceRun s1 ts

/-! ### Helper lemmas -/

/-- The global invariant of reachable `CameraStream` states: the count is
never negative; a running loop has at least one subscriber; a positive
count with the loop not running only happens after a failed initial
open. -/
def CamInv (s : CameraStream) : Prop :=
  0 ≤ s.subscribers ∧ (s.running = true → 1 ≤ s.subscribers) ∧
    (1 ≤ s.subscribers → s.running = false → s.openFailed = true)

theorem camInit_inv (url : String) : CamInv (camInit url) := by
  refine ⟨le_refl 0, ?_, ?_⟩ <;> simp [camInit]

/-- `add_subscriber` written without the intermediate `let`. -/
theorem add_subscriber_eq (s : CameraStream) :
    s.add_subscriber =
      if s.subscribers + 1 = 1 then
        (if s.running then { s with subscribers := s.subscribers + 1 }
         else { s with subscribers := s.subscribers + 1, running := true,
                       phase := Phase.starting, openFailed := false })
      else { s with subscribers := s.subscribers + 1 } := by
  by_cases hc : s.subscribers + 1 = 1
  · by_cases hr : s.running = true <;>
      simp [CameraStream.add_subscriber, CameraStream.start, hc, hr]
  · simp [CameraStream.add_subscriber, hc]

/-- `remove_subscriber` written without the intermediate `let`. -/
theorem remove_subscriber_eq (s : CameraStream) :
    s.remove_subscriber =
      if max 0 (s.subscribers - 1) = 0 then
        { s with subscribers := max 0 (s.subscribers - 1), running := false,
                 cap := false }
      else { s with subscribers := max 0 (s.subscribers - 1) } := by
  by_cases hc : max 0 (s.subscribers - 1) = 0 <;>
    simp [CameraStream.remove_subscriber, CameraStream.stop, hc]

theorem camStep_inv {s s2 : CameraStream} {e : CamEv}
    (hI : CamInv s) (h : camStep s e = some s2) : CamInv s2 := by
  obtain ⟨h0, h1, h2⟩ := hI
  cases e with
  | subscribe =>
      simp only [camStep, Option.some.injEq] at h
      subst h
      rw [add_subscriber_eq]
      by_cases hc : s.subscribers + 1 = 1
      · rw [if_pos hc]
        by_cases hr : s.running = true
        · rw [if_pos hr]
          refine ⟨?_, fun _ => ?_, fun _ hb => ?_⟩
          · show 0 ≤ s.subscribers + 1
            omega
          · show (1 : Int) ≤ s.subscribers + 1
            omega
          · exact Bool.noConfusion (hr.symm.trans hb)
        · rw [if_neg hr]
          refine ⟨?_, fun _ => ?_, fun _ hb => ?_⟩
          · show 0 ≤ s.subscribers + 1
            omega
          · show (1 : Int) ≤ s.subscribers + 1
            omega
          · exact Bool.noConfusion hb
      · rw [if_neg hc]
        refine ⟨?_, fun hr2 => ?_, fun _ hb => ?_⟩
        · show 0 ≤ s.subscribers + 1
          omega
        · have := h1 hr2
          show (1 : Int) ≤ s.subscribers + 1
          omega
        · show s.openFailed = true
          exact h2 (by omega) hb
  | unsubscribe =>
      simp only [camStep, Option.some.injEq] at h
      subst h
      rw [remove_subscriber_eq]
      by_cases hc : max 0 (s.subscribers - 1) = 0
      · rw [if_pos hc]
        refine ⟨?_, fun hr2 => ?_, fun ha _ => ?_⟩
        · show 0 ≤ max 0 (s.subscribers - 1)
          omega
        · exact Bool.noConfusion hr2
        · have ha2 : (1 : Int) ≤ max 0 (s.subscribers - 1) := ha
          exact absurd ha2 (by omega)
      · rw [if_neg hc]
        refine ⟨?_, fun hr2 => ?_, fun _ hb => ?_⟩
        · show 0 ≤ max 0 (s.subscribers - 1)
          omega
        · show (1 : Int) ≤ max 0 (s.subscribers - 1)
          omega
        · show s.openFailed = true
          exact h2 (by omega) hb
  | loopOpen ok =>
      simp only [camStep] at h
      split_ifs at h with hp hok hr <;> simp only [Option.some.injEq] at h <;> subst h
      · exact ⟨h0, h1, h2⟩
      · exact ⟨h0, h1, h2⟩
      · exact ⟨h0, fun hr2 => Bool.noConfusion hr2, fun _ _ => rfl⟩
  | loopRead r =>
      simp only [camStep] at h
      split_ifs at h with hg
      cases r <;> simp only [Option.some.injEq] at h <;> subst h
      · exact ⟨h0, h1, h2⟩
      · exact ⟨h0, h1, h2⟩
  | loopExit =>
      simp only [camStep] at h
      split_ifs at h with hg
      simp only [Option.some.injEq] at h
      subst h
      exact ⟨h0, h1, h2⟩

theorem camRunFrom_inv : ∀ (tr : List CamEv) (s s2 : CameraStream),
    CamInv s → camRunFrom s tr = some s2 → CamInv s2 := by
  intro tr
  induction tr with
  | nil => intro s s2 hI h; simp only [camRunFrom, Option.some.injEq] at h; subst h; exact hI
  | cons e es ih =>
      intro s s2 hI h
      simp only [camRunFrom] at h
      cases hs : camStep s e with
      | none => rw [hs] at h; cases h
      | some s1 =>
          rw [hs] at h
          exact ih s1 s2 (camStep_inv hI hs) h

theorem camRun_inv {url : String} {tr : List CamEv} {s : CameraStream}
    (h : camRun url tr = some s) : CamInv s :=
  camRunFrom_inv tr (camInit url) s (camInit_inv url) h

theorem camRunFrom_append (a b : List CamEv) : ∀ s : CameraStream,
    camRunFrom s (a ++ b) = (camRunFrom s a).bind (fun s1 => camRunFrom s1 b) := by
  induction a with
  | nil => intro s; simp [camRunFrom]
  | cons e es ih =>
      intro s
      simp only [List.cons_append, camRunFrom]
      cases camStep s e with
      | none => simp
      | some s1 => simpa using ih s1

/-- A single step changes the frame exactly the way `frameUpd` accounts
for it. -/
theorem camStep_frame {s s1 : CameraStream} {e : CamEv}
    (h : camStep s e = some s1) :
    s1.frame = frameUpd s.frame e := by
  cases e with
  | subscribe =>
      simp only [camStep, Option.some.injEq] at h
      subst h
      rw [add_subscriber_eq]
      split_ifs <;> rfl
  | unsubscribe =>
      simp only [camStep, Option.some.injEq] at h
      subst h
      rw [remove_subscriber_eq]
      split_ifs <;> rfl
  | loopOpen ok =>
      simp only [camStep] at h
      split_ifs at h <;> simp only [Option.some.injEq] at h <;> subst h <;> rfl
  | loopRead r =>
      simp only [camStep] at h
      split_ifs at h
      cases r <;> simp only [Option.some.injEq] at h <;> subst h <;> rfl
  | loopExit =>
      simp only [camStep] at h
      split_ifs at h
      simp only [Option.some.injEq] at h
      subst h
      rfl

theorem camRunFrom_frame : ∀ (tr : List CamEv) (s s2 : CameraStream),
    camRunFrom s tr = some s2 →
    s2.frame = tr.foldl frameUpd s.frame := by
  intro tr
  induction tr with
  | nil =>
      intro s s2 h
      simp only [camRunFrom, Option.some.injEq] at h
      subst h
      rfl
  | cons e es ih =>
      intro s s2 h
      simp only [camRunFrom] at h
      cases hs : camStep s e with
      | none => rw [hs] at h; cases h
      | some s1 =>
          rw [hs] at h
          calc s2.frame = es.foldl frameUpd s1.frame := ih s1 s2 h
            _ = es.foldl frameUpd (frameUpd s.frame e) := by rw [camStep_frame hs]
            _ = (e :: es).foldl frameUpd s.frame := (List.foldl_cons _ _).symm

/-- Loop events never touch the subscription count. -/
theorem camStep_loop_subscribers {s s1 : CameraStream} {e : CamEv}
    (he : isLoopEv e = true) (h : camStep s e = some s1) :
    s1.subscribers = s.subscribers := by
  cases e with
  | subscribe => cases he
  | unsubscribe => cases he
  | loopOpen ok =>
      simp only [camStep] at h
      split_ifs at h <;> simp only [Option.some.injEq] at h <;> subst h <;> rfl
  | loopRead r =>
      simp only [camStep] at h
      split_ifs at h
      cases r <;> simp only [Option.some.injEq] at h <;> subst h <;> rfl
  | loopExit =>
      simp only [camStep] at h
      split_ifs at h
      simp only [Option.some.injEq] at h
      subst h
      rfl

theorem camRunFrom_loop_subscribers : ∀ (tr : List CamEv) (s s2 : CameraStream),
    tr.all isLoopEv = true → camRunFrom s tr = some s2 →
    s2.subscribers = s.subscribers := by
  intro tr
  induction tr with
  | nil =>
      intro s s2 _ h
      simp only [camRunFrom, Option.some.injEq] at h
      subst h
      rfl
  | cons e es ih =>
      intro s s2 hall h
      simp only [List.all_cons, Bool.and_eq_true] at hall
      simp only [camRunFrom] at h
      cases hs : camStep s e with
      | none => rw [hs] at h; cases h
      | some s1 =>
          rw [hs] at h
          calc s2.subscribers = s1.subscribers := ih s1 s2 hall.2 h
            _ = s.subscribers := camStep_loop_subscribers hall.1 hs

/-- Any number of consecutive failed reads keeps the loop alive: the
`while` loop keeps spinning (release, backoff sleep, reopen), leaving
frame, count and clock untouched and adding one backoff sleep per
failure. -/
theorem loopRead_failures : ∀ (n : Nat) (s : CameraStream),
    s.phase = Phase.looping → s.running = true →
    ∃ s2, camRunFrom s (List.replicate n (CamEv.loopRead none)) = some s2
      ∧ s2.phase = Phase.looping ∧ s2.running = true
      ∧ s2.frame = s.frame ∧ s2.subscribers = s.subscribers
      ∧ s2.backoffSleeps = s.backoffSleeps + n ∧ s2.clock = s.clock := by
  intro n
  induction n with
  | zero =>
      intro s hp hr
      exact ⟨s, rfl, hp, hr, rfl, rfl, rfl, rfl⟩
  | succ k ih =>
      intro s hp hr
      have hstep : camStep s (CamEv.loopRead none) =
          some { s with cap := true, backoffSleeps := s.backoffSleeps + 1 } := by
        simp [camStep, hp, hr]
      obtain ⟨s2, hrun, h1, h2, h3, h4, h5, h6⟩ :=
        ih { s with cap := true, backoffSleeps := s.backoffSleeps + 1 } hp hr
      refine ⟨s2, ?_, h1, h2, h3, h4, ?_, h6⟩
      · simp only [List.replicate_succ, camRunFrom, hstep]
        exact hrun
      · simp only [h5]
        omega

/-- `add_subscriber` always increments the stored count by one. -/
theorem add_subscriber_subscribers (s : CameraStream) :
    (s.add_subscriber).subscribers = s.subscribers + 1 := by
  rw [add_subscriber_eq]
  split_ifs <;> rfl

/-! ### Claim theorems -/

/-- A reachable steady state violating claim C1: subscribe from count 0,
then the spawned `_update` thread fails its initial `isOpened` check. -/
def c1CexState : CameraStream :=
  { camInit "rtsp://cam" with subscribers := 1, openFailed := true }

/-- Claim C1, as stated, is false: after `add_subscriber()` from count 0
and a failed initial open of the Frame Source, the system is at steady
state (the `_update` thread has returned) with `subscribers = 1` and
`running = false` — the count is positive but the Capture Loop is
dormant, not running or transitioning to running. -/
theorem C1_counterexample :
    ¬ (∀ (url : String) (tr : List CamEv) (s : CameraStream),
        camRun url tr = some s → steadyState s = true →
        (0 < s.subscribers → s.running = true)) := by
  intro hclaim
  have h := hclaim "rtsp://cam" [CamEv.subscribe, CamEv.loopOpen false]
    c1CexState rfl rfl (by decide)
  exact Bool.noConfusion h

/-- Claim C1 (amended): in every reachable state, `count == 0` implies the
Capture Loop is dormant or transitioning to dormant (`running = false`),
and `count > 0` implies the loop is running or transitioning to running
(`running = true`) — except after a failed initial open of the Frame
Source, where the loop is dormant despite a positive count until the
count returns to 0 and a fresh subscribe restarts it. -/
theorem C1_subscription_loop_invariant (url : String) (tr : List CamEv)
    (s : CameraStream) (h : camRun url tr = some s) :
    (s.subscribers = 0 → s.running = false) ∧
    (0 < s.subscribers → s.running = true ∨ s.openFailed = true) := by
  obtain ⟨h0, h1, h2⟩ := camRun_inv h
  constructor
  · intro hz
    cases hrun : s.running
    · rfl
    · have := h1 hrun
      omega
  · intro hp
    cases hrun : s.running
    · exact Or.inr (h2 (by omega) hrun)
    · exact Or.inl rfl

/-- State after `subscribe` followed by a successful open: count 1, loop
running. -/
def loopingState : CameraStream :=
  { camInit "rtsp://cam" with subscribers := 1, running := true, cap := true,
                              phase := Phase.looping }

theorem C1_subscription_loop_invariant_witness :
    (loopingState.subscribers = 0 → loopingState.running = false) ∧
    (0 < loopingState.subscribers →
      loopingState.running = true ∨ loopingState.openFailed = true) :=
  C1_subscription_loop_invariant "rtsp://cam"
    [CamEv.subscribe, CamEv.loopOpen true] loopingState rfl

/-- Claim C2: evaluation of the code at the failing interleaving.  Two
threads run `add_subscriber()` concurrently from count 0.  Under the
interleaving A-read, B-read, A-write, B-write, A-test, A-start, B-test,
B-start (possible because `self.subscribers += 1` is not executed under
`self.lock`), the final count is 1 with exactly one `_update` thread
spawned, whereas both sequential orders of the same two calls end with
count 2 (and one thread spawned) — so the concurrent net effect matches
no sequential execution, contradicting the claim; the "exactly one
Capture Loop" part does hold, because `start()` tests `self.running`
under the lock. -/
theorem C2_race_lost_update :
    (raceRun (raceInit 0) [true, false, true, false, true, true, false, false]).map
        (fun s => (s.subscribers, s.startedLoops)) = some (1, 1)
    ∧ (raceRun (raceInit 0) [true, true, true, true, false, false, false, false]).map
        (fun s => (s.subscribers, s.startedLoops)) = some (2, 1)
    ∧ (raceRun (raceInit 0) [false, false, false, false, true, true, true, true]).map
        (fun s => (s.subscribers, s.startedLoops)) = some (2, 1) := by
  refine ⟨?_, ?_, ?_⟩ <;> decide

/-- Claim C3: while the loop is in its read loop with `running` still
true, any finite number `n` of consecutive failed reads never terminates
it — each failure releases the handle, sleeps the fixed 1-second backoff
(one backoff sleep per retry) and reopens — and the read after the
failures stop succeeds and lands its frame in the Shared Frame Buffer,
with the loop still running (Streaming again). -/
theorem C3_reconnect_and_recover (s : CameraStream) (n f : Nat)
    (hp : s.phase = Phase.looping) (hr : s.running = true) :
    ∃ s2, camRunFrom s
        (List.replicate n (CamEv.loopRead none) ++ [CamEv.loopRead (some f)]) =
        some s2
      ∧ s2.phase = Phase.looping ∧ s2.running = true ∧ s2.frame = some f
      ∧ s2.subscribers = s.subscribers
      ∧ s2.backoffSleeps = s.backoffSleeps + n := by
  obtain ⟨s1, hrun, hp1, hr1, _, hsub1, hb1, _⟩ := loopRead_failures n s hp hr
  have hstep : camStep s1 (CamEv.loopRead (some f)) =
      some { s1 with frame := some f, last_frame_time := s1.clock,
                     clock := s1.clock + 1 } := by
    simp [camStep, hp1, hr1]
  refine ⟨{ s1 with frame := some f, last_frame_time := s1.clock,
                    clock := s1.clock + 1 }, ?_, hp1, hr1, rfl, hsub1, hb1⟩
  rw [camRunFrom_append, hrun]
  show camRunFrom s1 [CamEv.loopRead (some f)] = some _
  simp [camRunFrom, hstep]

theorem C3_reconnect_and_recover_witness :
    ∃ s2, camRunFrom loopingState
        (List.replicate 3 (CamEv.loopRead none) ++ [CamEv.loopRead (some 7)]) =
        some s2
      ∧ s2.phase = Phase.looping ∧ s2.running = true ∧ s2.frame = some 7
      ∧ s2.subscribers = loopingState.subscribers
      ∧ s2.backoffSleeps = loopingState.backoffSleeps + 3 :=
  C3_reconnect_and_recover loopingState 3 7 rfl rfl

/-- Claim C4: `remove_subscriber` maps the count to `max 0 (count - 1)`
(a total function — it never raises); on a dormant state with count
already 0 it is a no-op on the whole object state; and no reachable
state, however many extra unsubscribes its trace contains, has a
negative count. -/
theorem C4_unsubscribe_floored (s : CameraStream) :
    (s.remove_subscriber).subscribers = max 0 (s.subscribers - 1)
    ∧ (s.subscribers = 0 → s.running = false → s.cap = false →
        s.remove_subscriber = s)
    ∧ (∀ (url : String) (tr : List CamEv) (s2 : CameraStream),
        camRun url tr = some s2 →
        0 ≤ s2.subscribers ∧ 0 ≤ (s2.remove_subscriber).subscribers) := by
  refine ⟨?_, ?_, ?_⟩
  · rw [remove_subscriber_eq]
    split_ifs <;> rfl
  · intro hz hr hc
    rw [remove_subscriber_eq, if_pos (show max 0 (s.subscribers - 1) = 0 by omega)]
    cases s with
    | mk url cap run fr lft fps subs ph off bs ck =>
        simp only at hz hr hc
        subst hz
        subst hr
        subst hc
        simp only [CameraStream.mk.injEq, eq_self_iff_true, and_true, true_and]
        decide
  · intro url tr s2 h
    have h0 := (camRun_inv h).1
    refine ⟨h0, ?_⟩
    rw [remove_subscriber_eq]
    split_ifs with hc
    · show (0 : Int) ≤ max 0 (s2.subscribers - 1)
      omega
    · show (0 : Int) ≤ max 0 (s2.subscribers - 1)
      omega

theorem C4_unsubscribe_floored_witness :
    ((camInit "u").remove_subscriber).subscribers =
        max 0 ((camInit "u").subscribers - 1)
    ∧ (camInit "u").remove_subscriber = camInit "u"
    ∧ (0 ≤ (camInit "u").subscribers
        ∧ 0 ≤ ((camInit "u").remove_subscriber).subscribers) := by
  have h := C4_unsubscribe_floored (camInit "u")
  exact ⟨h.1, h.2.1 rfl rfl rfl, h.2.2 "u" [] (camInit "u") rfl⟩

/-- Claim C5: the `POST /capture` handler subscribes, lets the grace
period elapse (loop events `grace`), reads the latest frame, unsubscribes
and then answers.  Whenever the handler runs (any state, any grace-period
loop activity, any encoder outcome) it produces exactly one of two
responses: a binary image payload with content type `image/jpeg` and
suggested filename `capture.jpg` holding the encoding of the latest
frame, when one was available and encoded; or status 503 with the
human-readable reason `Camera not ready` when no frame was available or
encoding failed.  The handler is a total function of its inputs — no
crash and no indefinite hang. -/
theorem C5_capture_response (s : CameraStream) (grace : List CamEv)
    (enc : Nat → Option Nat) (out : CameraStream × CaptureResult)
    (h : capture s grace enc = some out) :
    ∃ s1, camRunFrom s.add_subscriber grace = some s1 ∧
      ((s1.get_jpeg enc = none ∧
          out.2 = CaptureResult.unavailable 503 "Camera not ready") ∨
       (∃ j, s1.get_jpeg enc = some j ∧
          out.2 = CaptureResult.ok "image/jpeg" "capture.jpg" j)) := by
  cases hg : camRunFrom s.add_subscriber grace with
  | none => simp [capture, hg] at h
  | some s1 =>
      refine ⟨s1, rfl, ?_⟩
      cases hj : s1.get_jpeg enc with
      | none =>
          simp only [capture, hg, hj, Option.some.injEq] at h
          exact Or.inl ⟨rfl, by rw [← h]⟩
      | some j =>
          simp only [capture, hg, hj, Option.some.injEq] at h
          exact Or.inr ⟨j, rfl, by rw [← h]⟩

/-- The state reached inside `capture` in the witness scenario, after the
grace period delivered one frame. -/
def c5Mid : CameraStream :=
  { camInit "u" with subscribers := 1, running := true, cap := true,
                     phase := Phase.looping, frame := some 5, clock := 1 }

theorem C5_capture_response_witness :
    ∃ s1, camRunFrom (camInit "u").add_subscriber
        [CamEv.loopOpen true, CamEv.loopRead (some 5)] = some s1 ∧
      ((s1.get_jpeg some = none ∧
          (c5Mid.remove_subscriber,
            CaptureResult.ok "image/jpeg" "capture.jpg" 5).2 =
            CaptureResult.unavailable 503 "Camera not ready") ∨
       (∃ j, s1.get_jpeg some = some j ∧
          (c5Mid.remove_subscriber,
            CaptureResult.ok "image/jpeg" "capture.jpg" 5).2 =
            CaptureResult.ok "image/jpeg" "capture.jpg" j)) :=
  C5_capture_response (camInit "u") [CamEv.loopOpen true, CamEv.loopRead (some 5)]
    some (c5Mid.remove_subscriber, CaptureResult.ok "image/jpeg" "capture.jpg" 5) rfl

/-- Claim C6: `get_frame` returns (a copy of) the most recently captured
frame of the whole run, and `absent` exactly when the capture loop has
not yet performed a successful read. -/
theorem C6_get_frame_latest (url : String) (tr : List CamEv)
    (s : CameraStream) (h : camRun url tr = some s) :
    s.get_frame = lastCaptured tr := by
  have hf := camRunFrom_frame tr (camInit url) s h
  rw [CameraStream.get_frame, lastCaptured, hf]
  rfl

/-- State after one subscribe, a successful open and one successful
read of frame 4. -/
def c6State : CameraStream :=
  { camInit "u" with subscribers := 1, running := true, cap := true,
                     phase := Phase.looping, frame := some 4, clock := 1 }

theorem C6_get_frame_latest_witness :
    c6State.get_frame =
      lastCaptured [CamEv.subscribe, CamEv.loopOpen true, CamEv.loopRead (some 4)] :=
  C6_get_frame_latest "u"
    [CamEv.subscribe, CamEv.loopOpen true, CamEv.loopRead (some 4)] c6State rfl

/-- A run of the generator never closes it by itself and never runs the
`finally` clause. -/
theorem genRun_open (enc : Nat → Option Nat) :
    ∀ (sched : List (List CamEv)) (g g2 : GenState),
    g.closed = false → g.removeCalls = 0 →
    genRun g enc sched = some g2 →
    g2.closed = false ∧ g2.removeCalls = 0 := by
  intro sched
  induction sched with
  | nil =>
      intro g g2 hc hr h
      simp only [genRun, Option.some.injEq] at h
      subst h
      exact ⟨hc, hr⟩
  | cons evs rest ih =>
      intro g g2 hc hr h
      simp only [genRun] at h
      cases ht : genTick g evs enc with
      | none => rw [ht] at h; cases h
      | some g1 =>
          rw [ht] at h
          have hg1 : g1.closed = false ∧ g1.removeCalls = 0 := by
            cases hcam : camRunFrom g.cam evs with
            | none => simp [genTick, hc, hcam] at ht
            | some s1 =>
                cases hj : s1.get_jpeg enc with
                | none =>
                    simp only [genTick, hc, hcam, hj, Bool.false_eq_true,
                      if_false, Option.some.injEq] at ht
                    subst ht
                    exact ⟨rfl, hr⟩
                | some j =>
                    simp only [genTick, hc, hcam, hj, Bool.false_eq_true,
                      if_false, Option.some.injEq] at ht
                    subst ht
                    exact ⟨rfl, hr⟩
          exact ih g1 g2 hg1.1 hg1.2 h

/-- Claim C7: a `gen_mjpeg_stream` generator, run over any schedule of
ticks (each tick: upstream loop events, then one `get_jpeg()` poll), is
never terminated by a tick without a frame — the body sleeps and retries,
so after the whole schedule the generator is still open and has not yet
unsubscribed — and on exit (client disconnect or server-side error, both
of which run the `finally` clause) `remove_subscriber` runs exactly once,
with a second close changing nothing. -/
theorem C7_stream_unsubscribes_once (s : CameraStream) (enc : Nat → Option Nat)
    (sched : List (List CamEv)) (g : GenState)
    (h : genRun (genStart s) enc sched = some g) :
    g.closed = false ∧ g.removeCalls = 0 ∧
    (genClose g).removeCalls = 1 ∧ genClose (genClose g) = genClose g := by
  have ho := genRun_open enc sched (genStart s) g rfl rfl h
  refine ⟨ho.1, ho.2, ?_, ?_⟩
  · simp [genClose, ho.1, ho.2]
  · simp [genClose, ho.1]

/-- Generator state in the C7 witness scenario: one gap tick (loop just
opened, no frame yet), then one tick that yields frame 3. -/
def c7Gen : GenState :=
  { cam := { camInit "u" with subscribers := 1, running := true, cap := true,
                              phase := Phase.looping, frame := some 3, clock := 1 }
    parts := [{ contentType := "image/jpeg", body := 3 }]
    closed := false
    removeCalls := 0 }

theorem C7_stream_unsubscribes_once_witness :
    c7Gen.closed = false ∧ c7Gen.removeCalls = 0 ∧
    (genClose c7Gen).removeCalls = 1 ∧ genClose (genClose c7Gen) = genClose c7Gen :=
  C7_stream_unsubscribes_once (camInit "u") some
    [[CamEv.loopOpen true], [CamEv.loopRead (some 3)]] c7Gen rfl

/-- Claim C8: on every loop-exit path to Dormant — `stop()` triggered by
the count reaching 0, the `while running` loop ending on its own
(`loopExit`), or the failed initial open — any held Frame Source handle
is released (`cap` becomes `None`) while the Shared Frame Buffer's last
frame and last capture time are left unchanged, so a later `get_frame`
still observes the last-seen frame. -/
theorem C8_exit_paths_release_keep_frame (s t u : CameraStream) :
    (s.stop.cap = false ∧ s.stop.frame = s.frame ∧
      s.stop.last_frame_time = s.last_frame_time ∧ s.stop.get_frame = s.get_frame)
    ∧ (∀ t2, camStep t CamEv.loopExit = some t2 →
        t2.cap = false ∧ t2.frame = t.frame ∧
        t2.last_frame_time = t.last_frame_time ∧ t2.get_frame = t.get_frame)
    ∧ (∀ u2, camStep u (CamEv.loopOpen false) = some u2 →
        u2.cap = false ∧ u2.frame = u.frame ∧
        u2.last_frame_time = u.last_frame_time ∧ u2.get_frame = u.get_frame) := by
  refine ⟨⟨rfl, rfl, rfl, rfl⟩, ?_, ?_⟩
  · intro t2 h
    have h2 : (if t.phase = Phase.looping ∧ ¬ t.running then
        some { t with cap := false, phase := Phase.idle } else none) = some t2 := h
    split_ifs at h2
    simp only [Option.some.injEq] at h2
    subst h2
    exact ⟨rfl, rfl, rfl, rfl⟩
  · intro u2 h
    have h2 : (if u.phase = Phase.starting then
        some { u with cap := false, running := false, phase := Phase.idle,
                      openFailed := true } else none) = some u2 := h
    split_ifs at h2
    simp only [Option.some.injEq] at h2
    subst h2
    exact ⟨rfl, rfl, rfl, rfl⟩

/-- A mid-shutdown state: loop thread still in its read loop, `running`
already false, handle held, a stale frame in the buffer. -/
def c8ExitState : CameraStream :=
  { camInit "x" with phase := Phase.looping, cap := true, frame := some 9,
                     last_frame_time := 4 }

/-- A freshly started loop thread about to fail its initial open, with a
stale frame from an earlier run. -/
def c8OpenState : CameraStream :=
  { camInit "x" with subscribers := 1, running := true, phase := Phase.starting,
                     frame := some 9, last_frame_time := 4 }

/-- The state after the `loopExit` step from `c8ExitState`. -/
def c8ExitOut : CameraStream :=
  { c8ExitState with cap := false, phase := Phase.idle }

/-- The state after the failed-open step from `c8OpenState`. -/
def c8OpenOut : CameraStream :=
  { c8OpenState with cap := false, running := false, phase := Phase.idle,
                     openFailed := true }

theorem C8_exit_paths_release_keep_frame_witness :
    (c8ExitState.stop.cap = false ∧ c8ExitState.stop.frame = c8ExitState.frame ∧
      c8ExitState.stop.last_frame_time = c8ExitState.last_frame_time ∧
      c8ExitState.stop.get_frame = c8ExitState.get_frame)
    ∧ (c8ExitOut.cap = false ∧ c8ExitOut.frame = c8ExitState.frame ∧
        c8ExitOut.last_frame_time = c8ExitState.last_frame_time ∧
        c8ExitOut.get_frame = c8ExitState.get_frame)
    ∧ (c8OpenOut.cap = false ∧ c8OpenOut.frame = c8OpenState.frame ∧
        c8OpenOut.last_frame_time = c8OpenState.last_frame_time ∧
        c8OpenOut.get_frame = c8OpenState.get_frame) := by
  have h := C8_exit_paths_release_keep_frame c8ExitState c8ExitState c8OpenState
  exact ⟨h.1, h.2.1 c8ExitOut rfl, h.2.2 c8OpenOut rfl⟩

/-- Claim C9: if `RTSP_URL` is absent the module prologue raises before
`app.run` is ever reached (startup-fatal, the process does not serve);
if it is present and the optional variables are absent, the process
proceeds with the documented defaults `SERVER_HOST = "0.0.0.0"`,
`SERVER_PORT = 8080`, `JPEG_QUALITY = 80`. -/
theorem C9_config_required_and_defaults (e : Env) :
    (e.rtsp_url = none → ∃ msg, loadConfig e = Except.error msg)
    ∧ (∀ url, e.rtsp_url = some url → e.server_host = none →
        e.server_port = none → e.jpeg_quality = none →
        loadConfig e = Except.ok
          { rtsp_url := url, server_host := "0.0.0.0",
            server_port := 8080, jpeg_quality := 80 }) := by
  constructor
  · intro hn
    cases h1 : pyInt (e.server_port.getD "8080") with
    | none =>
        exact ⟨"invalid literal for int: SERVER_PORT", by simp [loadConfig, h1]⟩
    | some p =>
        cases h2 : pyInt (e.jpeg_quality.getD "80") with
        | none =>
            exact ⟨"invalid literal for int: JPEG_QUALITY",
              by simp [loadConfig, h1, h2]⟩
        | some q =>
            exact ⟨"RTSP_URL environment variable must be set",
              by simp [loadConfig, h1, h2, hn]⟩
  · intro url hu hh hp hq
    have h8080 : pyInt "8080" = some 8080 := by decide
    have h80 : pyInt "80" = some 80 := by decide
    simp only [loadConfig, hu, hh, hp, hq, Option.getD_none, h8080, h80]

theorem C9_config_required_and_defaults_witness :
    (∃ msg, loadConfig { rtsp_url := none, server_host := none,
                         server_port := none, jpeg_quality := none } =
        Except.error msg)
    ∧ loadConfig { rtsp_url := some "rtsp://cam", server_host := none,
                   server_port := none, jpeg_quality := none } =
        Except.ok { rtsp_url := "rtsp://cam", server_host := "0.0.0.0",
                    server_port := 8080, jpeg_quality := 80 } :=
  ⟨(C9_config_required_and_defaults
      { rtsp_url := none, server_host := none,
        server_port := none, jpeg_quality := none }).1 rfl,
   (C9_config_required_and_defaults
      { rtsp_url := some "rtsp://cam", server_host := none,
        server_port := none, jpeg_quality := none }).2 "rtsp://cam" rfl rfl rfl rfl⟩

/-- Claim C10: on the unavailable path of `POST /capture`,
`remove_subscriber` has already run when the 503 response is produced
(it is the first component of the result), so a failed capture restores
the subscription count exactly — `max 0 (count + 1 - 1) = count` — and
when the request arrived with count 0 the Capture Loop is stopped again
(`running = false`): repeated failed captures leak no subscription and
leave no loop running. -/
theorem C10_failed_capture_no_leak (s : CameraStream) (grace : List CamEv)
    (enc : Nat → Option Nat) (out : CameraStream × CaptureResult)
    (hloop : grace.all isLoopEv = true)
    (hnn : 0 ≤ s.subscribers)
    (h : capture s grace enc = some out)
    (hfail : out.2 = CaptureResult.unavailable 503 "Camera not ready") :
    (out.1).subscribers = s.subscribers ∧
    (s.subscribers = 0 → (out.1).running = false) := by
  cases hg : camRunFrom s.add_subscriber grace with
  | none => simp [capture, hg] at h
  | some s1 =>
      have hs1 : s1.subscribers = s.subscribers + 1 := by
        rw [camRunFrom_loop_subscribers grace s.add_subscriber s1 hloop hg]
        exact add_subscriber_subscribers s
      have hout : out.1 = s1.remove_subscriber := by
        cases hj : s1.get_jpeg enc with
        | none =>
            simp only [capture, hg, hj, Option.some.injEq] at h
            rw [← h]
        | some j =>
            simp only [capture, hg, hj, Option.some.injEq] at h
            rw [← h]
      constructor
      · rw [hout, remove_subscriber_eq]
        split_ifs with hc
        · show max 0 (s1.subscribers - 1) = s.subscribers
          omega
        · show max 0 (s1.subscribers - 1) = s.subscribers
          omega
      · intro hz
        rw [hout, remove_subscriber_eq,
          if_pos (show max 0 (s1.subscribers - 1) = 0 by omega)]

/-- Result of the witness capture request: open fails during the grace
period, no frame, 503, count back to 0 and loop stopped. -/
def c10Out : CameraStream × CaptureResult :=
  ({ camInit "u" with openFailed := true },
   CaptureResult.unavailable 503 "Camera not ready")

theorem C10_failed_capture_no_leak_witness :
    (c10Out.1).subscribers = (camInit "u").subscribers ∧
    ((camInit "u").subscribers = 0 → (c10Out.1).running = false) :=
  C10_failed_capture_no_leak (camInit "u") [CamEv.loopOpen false]
    (fun _ => none) c10Out rfl (by decide) rfl rfl
